import Mathlib

/-!
Verification of the core calculation logic of `src/Solar_Calculator.py`
(a solar-farm investment calculator) against its specification.

The embedding translates the two core functions and the module-level price
sweep loop of the source:

* `calculate_scaled_cost` (lines 8-18): the cost-to-capacity scaler.  The
  Python function displays a message via `st.error` and returns `0` when
  `base_scale <= 0`; we model its observable behaviour as a record holding
  the displayed error messages and the returned numeric value.
* `calculate_solar_financials` (lines 20-55): the financial evaluator.  It
  returns a dict of results; the default values `float('inf')`, `-1.0`,
  `-1.0` for `simple_payback`, `roi`, `irr` are kept unless
  `annual_profit > 0 and initial_investment > 0`, in which case those three
  keys are overwritten.  `simple_payback` is modelled in `EReal` so that
  `float('inf')` is `⊤`; the external root finder `npf.irr` is a parameter
  of the embedding.
* the price sweep loop (lines 303-314): builds one graph point per price in
  the supplied sequence, carrying the price together with the `irr` and
  `simple_payback` of the evaluator run at that price.

Python floats are modelled as real numbers.
-/

/-- Observable behaviour of one call to `calculate_scaled_cost`: the messages
the call displays via `st.error`, and the numeric value it returns. -/
structure ScaledCostOutput where
  errors : List String
  value : ℝ

/-- Embedding of `calculate_scaled_cost` (src/Solar_Calculator.py lines 8-18):
when `base_scale <= 0` the function displays an error message and returns `0`;
otherwise it returns `base_cost * (new_scale / base_scale) ** scaling_factor`
(real power). -/
noncomputable def calculate_scaled_cost
    (base_cost base_scale new_scale scaling_factor : ℝ) : ScaledCostOutput :=
  if base_scale ≤ 0 then
    { errors := ["Base scale must be greater than zero for scaling calculations."]
      value := 0 }
  else
    { errors := []
      value := base_cost * (new_scale / base_scale) ^ scaling_factor }

/-- The dict returned by `calculate_solar_financials` (lines 33-44).
`simple_payback` lives in `EReal` so that Python's `float('inf')` is `⊤`. -/
structure SolarFinancials where
  initial_investment : ℝ
  contingency_amount : ℝ
  annual_revenue : ℝ
  maintenance_cost : ℝ
  annual_profit : ℝ
  lifetime_profit : ℝ
  lifetime_maintenance_cost : ℝ
  simple_payback : EReal
  roi : ℝ
  irr : ℝ

/-- The cash-flow stream built at line 52 of the source:
`[-initial_investment] + [annual_profit] * plant_lifetime`. -/
def solar_cash_flows (initial_investment annual_profit : ℝ)
    (plant_lifetime : ℕ) : List ℝ :=
  -initial_investment :: List.replicate plant_lifetime annual_profit

/-- Embedding of `calculate_solar_financials` (lines 20-55), parametrised by
the external root finder `npf.irr` (`irr_solver`).  The result dict is
initialised with the non-profitable defaults `inf`, `-1.0`, `-1.0` and the
three metric keys are overwritten exactly when
`annual_profit > 0 and initial_investment > 0`, as lines 47-53 do. -/
noncomputable def calculate_solar_financials (irr_solver : List ℝ → ℝ)
    (capex contingency_pct annual_kwh price_per_kwh maintenance_cost : ℝ)
    (plant_lifetime : ℕ) : SolarFinancials :=
  let contingency_amount := capex * (contingency_pct / 100)
  let initial_investment := capex + contingency_amount
  let annual_revenue := annual_kwh * price_per_kwh
  let annual_profit := annual_revenue - maintenance_cost
  let lifetime_profit := annual_profit * (plant_lifetime : ℝ)
  let lifetime_maintenance_cost := maintenance_cost * (plant_lifetime : ℝ)
  if annual_profit > 0 ∧ initial_investment > 0 then
    let net_gain := lifetime_profit - initial_investment
    { initial_investment := initial_investment
      contingency_amount := contingency_amount
      annual_revenue := annual_revenue
      maintenance_cost := maintenance_cost
      annual_profit := annual_profit
      lifetime_profit := lifetime_profit
      lifetime_maintenance_cost := lifetime_maintenance_cost
      simple_payback := ((initial_investment / annual_profit : ℝ) : EReal)
      roi := net_gain / initial_investment
      irr := irr_solver (solar_cash_flows initial_investment annual_profit plant_lifetime) }
  else
    { initial_investment := initial_investment
      contingency_amount := contingency_amount
      annual_revenue := annual_revenue
      maintenance_cost := maintenance_cost
      annual_profit := annual_profit
      lifetime_profit := lifetime_profit
      lifetime_maintenance_cost := lifetime_maintenance_cost
      simple_payback := ⊤
      roi := -1
      irr := -1 }

/-- One point appended to `graph_data` by the sweep loop (lines 310-314): the
swept price together with the `irr` and `simple_payback` of the evaluator run
at that price. -/
structure GraphPoint where
  price_per_kwh : ℝ
  irr : ℝ
  payback_period : EReal

/-- Embedding of the module-level price sweep loop (lines 303-314): for each
price in `price_scenarios`, in order, run `calculate_solar_financials` on the
base parameters (converted to base units as lines 306-308 do) with the price
overridden, and append the resulting graph point. -/
noncomputable def price_sweep (irr_solver : List ℝ → ℝ)
    (capex_mil contingency_pct annual_kwh_mil maintenance_k : ℝ)
    (plant_lifetime : ℕ) (price_scenarios : List ℝ) : List GraphPoint :=
  price_scenarios.map fun price =>
    let scenario_results := calculate_solar_financials irr_solver
      (capex_mil * 1000000) contingency_pct (annual_kwh_mil * 1000000)
      price (maintenance_k * 1000) plant_lifetime
    { price_per_kwh := price
      irr := scenario_results.irr
      payback_period := scenario_results.simple_payback }

/-- Modelled from the spec: the external root finder `npf.irr`
(numpy-financial, not part of this repository) is specified as solving for
the rate `r` at which the net present value of the cash-flow stream is zero,
`Σ cashFlow[t] / (1+r)^t = 0` over `t = 0..plantLifetimeYears`.  This is that
net present value. -/
noncomputable def npv (cash_flows : List ℝ) (r : ℝ) : ℝ :=
  ∑ t ∈ Finset.range cash_flows.length, cash_flows.getD t 0 / (1 + r) ^ t

/-! ### Helper lemmas about the evaluator's fields -/

lemma csf_contingency_amount (s : List ℝ → ℝ) (c p k pr m : ℝ) (L : ℕ) :
    (calculate_solar_financials s c p k pr m L).contingency_amount = c * (p / 100) := by
  simp only [calculate_solar_financials]
  split <;> rfl

lemma csf_initial_investment (s : List ℝ → ℝ) (c p k pr m : ℝ) (L : ℕ) :
    (calculate_solar_financials s c p k pr m L).initial_investment = c + c * (p / 100) := by
  simp only [calculate_solar_financials]
  split <;> rfl

lemma csf_annual_revenue (s : List ℝ → ℝ) (c p k pr m : ℝ) (L : ℕ) :
    (calculate_solar_financials s c p k pr m L).annual_revenue = k * pr := by
  simp only [calculate_solar_financials]
  split <;> rfl

lemma csf_maintenance_cost (s : List ℝ → ℝ) (c p k pr m : ℝ) (L : ℕ) :
    (calculate_solar_financials s c p k pr m L).maintenance_cost = m := by
  simp only [calculate_solar_financials]
  split <;> rfl

lemma csf_annual_profit (s : List ℝ → ℝ) (c p k pr m : ℝ) (L : ℕ) :
    (calculate_solar_financials s c p k pr m L).annual_profit = k * pr - m := by
  simp only [calculate_solar_financials]
  split <;> rfl

lemma csf_lifetime_profit (s : List ℝ → ℝ) (c p k pr m : ℝ) (L : ℕ) :
    (calculate_solar_financials s c p k pr m L).lifetime_profit = (k * pr - m) * (L : ℝ) := by
  simp only [calculate_solar_financials]
  split <;> rfl

lemma csf_lifetime_maintenance_cost (s : List ℝ → ℝ) (c p k pr m : ℝ) (L : ℕ) :
    (calculate_solar_financials s c p k pr m L).lifetime_maintenance_cost = m * (L : ℝ) := by
  simp only [calculate_solar_financials]
  split <;> rfl

lemma csf_metrics_of_viable (s : List ℝ → ℝ) (c p k pr m : ℝ) (L : ℕ)
    (h : k * pr - m > 0 ∧ c + c * (p / 100) > 0) :
    (calculate_solar_financials s c p k pr m L).simple_payback =
      (((c + c * (p / 100)) / (k * pr - m) : ℝ) : EReal) ∧
    (calculate_solar_financials s c p k pr m L).roi =
      ((k * pr - m) * (L : ℝ) - (c + c * (p / 100))) / (c + c * (p / 100)) ∧
    (calculate_solar_financials s c p k pr m L).irr =
      s (solar_cash_flows (c + c * (p / 100)) (k * pr - m) L) := by
  simp only [calculate_solar_financials]
  rw [if_pos h]
  exact ⟨rfl, rfl, rfl⟩

lemma csf_metrics_of_not_viable (s : List ℝ → ℝ) (c p k pr m : ℝ) (L : ℕ)
    (h : ¬(k * pr - m > 0 ∧ c + c * (p / 100) > 0)) :
    (calculate_solar_financials s c p k pr m L).simple_payback = ⊤ ∧
    (calculate_solar_financials s c p k pr m L).roi = -1 ∧
    (calculate_solar_financials s c p k pr m L).irr = -1 := by
  simp only [calculate_solar_financials]
  rw [if_neg h]
  exact ⟨rfl, rfl, rfl⟩

/-! ### Claims about the cost-to-capacity scaler -/

/-- C1 counterexample: at `base_scale = 0` the call does not fail; it returns
the numeric value `0` to the caller (while displaying an error message), so
the violation is defaulted to zero, contrary to the claim. -/
theorem C1_cex :
    (calculate_scaled_cost 5 0 3 1).value = 0 ∧
    (calculate_scaled_cost 5 0 3 1).errors ≠ [] := by
  rw [calculate_scaled_cost, if_pos (le_refl (0 : ℝ))]
  exact ⟨rfl, by simp⟩

/-- C1 (amended): for every call with `base_scale ≤ 0`, the function displays
the error message "Base scale must be greater than zero for scaling
calculations." and returns the numeric value `0` to the caller, rather than
failing with an exception. -/
theorem C1_thm (base_cost base_scale new_scale scaling_factor : ℝ)
    (h : base_scale ≤ 0) :
    (calculate_scaled_cost base_cost base_scale new_scale scaling_factor).errors =
      ["Base scale must be greater than zero for scaling calculations."] ∧
    (calculate_scaled_cost base_cost base_scale new_scale scaling_factor).value = 0 := by
  rw [calculate_scaled_cost, if_pos h]
  exact ⟨rfl, rfl⟩

/-- C1 witness: the amended claim at the concrete input `(7, -2, 3, 0.6)`. -/
theorem C1_witness :
    (calculate_scaled_cost 7 (-2) 3 0.6).errors =
      ["Base scale must be greater than zero for scaling calculations."] ∧
    (calculate_scaled_cost 7 (-2) 3 0.6).value = 0 :=
  C1_thm 7 (-2) 3 0.6 (by norm_num)

/-- C6: scaling to the same size is a no-op: for every base cost `X`, scale
`S > 0` and scaling factor `n`, `calculate_scaled_cost X S S n` returns `X`. -/
theorem C6_thm (X S n : ℝ) (h : S > 0) :
    (calculate_scaled_cost X S S n).value = X := by
  rw [calculate_scaled_cost, if_neg (not_le.mpr h)]
  show X * (S / S) ^ n = X
  rw [div_self (ne_of_gt h), Real.one_rpow, mul_one]

/-- C6 witness: scaling cost `7` from scale `2` to scale `2` with exponent `5`
returns `7`. -/
theorem C6_witness : (calculate_scaled_cost 7 2 2 5).value = 7 :=
  C6_thm 7 2 5 (by norm_num)

/-- C7 counterexample: with `base_cost = 0`, `base_scale = 1` and
`scaling_factor = 1 > 0`, growing the new scale from `1` to `2` does not
strictly increase the scaled cost (both are `0`), so the claim's strict
monotonicity for every base cost fails. -/
theorem C7_cex :
    ¬ ((calculate_scaled_cost 0 1 1 1).value < (calculate_scaled_cost 0 1 2 1).value) := by
  have h : ¬ (1 : ℝ) ≤ 0 := by norm_num
  rw [calculate_scaled_cost, if_neg h, calculate_scaled_cost, if_neg h]
  show ¬ ((0 : ℝ) * (1 / 1) ^ (1 : ℝ) < 0 * (2 / 1) ^ (1 : ℝ))
  simp

/-- C7 (amended): the scaler is strictly increasing in `new_scale` for a
strictly positive base cost: for every `base_cost > 0`, `base_scale > 0`,
`0 ≤ a < b` and `scaling_factor > 0`, the value at `a` is strictly below the
value at `b`. -/
theorem C7_thm (base_cost base_scale a b scaling_factor : ℝ)
    (hC : 0 < base_cost) (hS : 0 < base_scale) (ha : 0 ≤ a) (hab : a < b)
    (hn : 0 < scaling_factor) :
    (calculate_scaled_cost base_cost base_scale a scaling_factor).value <
    (calculate_scaled_cost base_cost base_scale b scaling_factor).value := by
  rw [calculate_scaled_cost, if_neg (not_le.mpr hS),
    calculate_scaled_cost, if_neg (not_le.mpr hS)]
  show base_cost * (a / base_scale) ^ scaling_factor <
    base_cost * (b / base_scale) ^ scaling_factor
  have hdiv : a / base_scale < b / base_scale := by gcongr
  exact mul_lt_mul_of_pos_left
    (Real.rpow_lt_rpow (div_nonneg ha hS.le) hdiv hn) hC

/-- C7 witness: the amended claim at base cost `3`, base scale `1`, new scales
`0 < 4`, exponent `0.5`. -/
theorem C7_witness :
    (calculate_scaled_cost 3 1 0 0.5).value < (calculate_scaled_cost 3 1 4 0.5).value :=
  C7_thm 3 1 0 4 0.5 (by norm_num) (by norm_num) (by norm_num) (by norm_num)
    (by norm_num)

/-! ### Claims about the financial evaluator -/

/-- C2 counterexample: with `annual_profit = 1 > 0` but
`initial_investment = 0` (an all-grant-funded project), the evaluator leaves
`roi` at the non-profitable default `-1`, not at the claimed `0`. -/
theorem C2_cex :
    0 < (calculate_solar_financials (fun _ => 0) 0 0 1 1 0 1).annual_profit ∧
    (calculate_solar_financials (fun _ => 0) 0 0 1 1 0 1).initial_investment = 0 ∧
    (calculate_solar_financials (fun _ => 0) 0 0 1 1 0 1).roi ≠ 0 := by
  refine ⟨?_, ?_, ?_⟩
  · rw [csf_annual_profit]; norm_num
  · rw [csf_initial_investment]; norm_num
  · have h := csf_metrics_of_not_viable (fun _ => 0) 0 0 1 1 0 1 (by norm_num)
    rw [h.2.1]; norm_num

/-- C2 (amended): for an input with `annual_profit > 0` and
`initial_investment = 0`, the evaluator returns the non-viable sentinel
`roi = -1` (not `0`); for `annual_profit > 0` and `initial_investment > 0`
it returns `roi = (annual_profit * plant_lifetime - initial_investment) /
initial_investment`. -/
theorem C2_thm (s : List ℝ → ℝ) (c p k pr m : ℝ) (L : ℕ)
    (h : 0 < (calculate_solar_financials s c p k pr m L).annual_profit) :
    ((calculate_solar_financials s c p k pr m L).initial_investment = 0 →
      (calculate_solar_financials s c p k pr m L).roi = -1) ∧
    (0 < (calculate_solar_financials s c p k pr m L).initial_investment →
      (calculate_solar_financials s c p k pr m L).roi =
        ((calculate_solar_financials s c p k pr m L).annual_profit * (L : ℝ) -
            (calculate_solar_financials s c p k pr m L).initial_investment) /
          (calculate_solar_financials s c p k pr m L).initial_investment) := by
  rw [csf_annual_profit] at h
  constructor
  · intro h0
    rw [csf_initial_investment] at h0
    exact (csf_metrics_of_not_viable s c p k pr m L (by rw [h0]; simp)).2.1
  · intro hI
    rw [csf_initial_investment] at hI
    rw [csf_annual_profit, csf_initial_investment,
      (csf_metrics_of_viable s c p k pr m L ⟨h, hI⟩).2.1]

/-- C2 witness: the amended claim at capex `100`, no contingency, revenue `2`,
maintenance `1`, lifetime `10`: profit is `1 > 0` and investment `100 > 0`. -/
theorem C2_witness :
    ((calculate_solar_financials (fun _ => 0) 100 0 1 2 1 10).initial_investment = 0 →
      (calculate_solar_financials (fun _ => 0) 100 0 1 2 1 10).roi = -1) ∧
    (0 < (calculate_solar_financials (fun _ => 0) 100 0 1 2 1 10).initial_investment →
      (calculate_solar_financials (fun _ => 0) 100 0 1 2 1 10).roi =
        ((calculate_solar_financials (fun _ => 0) 100 0 1 2 1 10).annual_profit * ((10 : ℕ) : ℝ) -
            (calculate_solar_financials (fun _ => 0) 100 0 1 2 1 10).initial_investment) /
          (calculate_solar_financials (fun _ => 0) 100 0 1 2 1 10).initial_investment) :=
  C2_thm (fun _ => 0) 100 0 1 2 1 10 (by rw [csf_annual_profit]; norm_num)

/-- C3: whenever `annual_profit ≤ 0`, the evaluator returns the not-viable
outcome regardless of all other inputs: `simple_payback = ⊤` (infinite),
`roi = -1` and `irr = -1`. -/
theorem C3_thm (s : List ℝ → ℝ) (c p k pr m : ℝ) (L : ℕ)
    (h : (calculate_solar_financials s c p k pr m L).annual_profit ≤ 0) :
    (calculate_solar_financials s c p k pr m L).simple_payback = ⊤ ∧
    (calculate_solar_financials s c p k pr m L).roi = -1 ∧
    (calculate_solar_financials s c p k pr m L).irr = -1 := by
  rw [csf_annual_profit] at h
  exact csf_metrics_of_not_viable s c p k pr m L fun hc => absurd hc.1 (not_lt.mpr h)

/-- C3 witness: the claim at an unprofitable concrete input (revenue `15000`
below maintenance `30000`), with zero capex and lifetime `40`. -/
theorem C3_witness :
    (calculate_solar_financials (fun _ => 0) 0 10 1500000 0.01 30000 40).simple_payback = ⊤ ∧
    (calculate_solar_financials (fun _ => 0) 0 10 1500000 0.01 30000 40).roi = -1 ∧
    (calculate_solar_financials (fun _ => 0) 0 10 1500000 0.01 30000 40).irr = -1 :=
  C3_thm (fun _ => 0) 0 10 1500000 0.01 30000 40
    (by rw [csf_annual_profit]; norm_num)

/-- C4 counterexample: the valid input capex `0`, contingency `0%`, energy
`1`, price `1`, maintenance `0`, lifetime `1` has `annual_profit = 1 > 0`,
yet `simple_payback` is the infinite sentinel `⊤`, not
`initial_investment / annual_profit` (which would be `0`), refuting the claim
for that input. -/
theorem C4_cex :
    0 < (calculate_solar_financials (fun _ => 0) 0 0 1 1 0 1).annual_profit ∧
    (calculate_solar_financials (fun _ => 0) 0 0 1 1 0 1).simple_payback ≠
      (((calculate_solar_financials (fun _ => 0) 0 0 1 1 0 1).initial_investment /
        (calculate_solar_financials (fun _ => 0) 0 0 1 1 0 1).annual_profit : ℝ) : EReal) := by
  constructor
  · rw [csf_annual_profit]; norm_num
  · rw [(csf_metrics_of_not_viable (fun _ => 0) 0 0 1 1 0 1 (by norm_num)).1]
    exact (EReal.coe_ne_top _).symm

/-- C4 (amended): for every input with `annual_profit > 0` and
`initial_investment > 0`, the evaluator returns
`simple_payback = initial_investment / annual_profit` exactly, and that value
is strictly positive. -/
theorem C4_thm (s : List ℝ → ℝ) (c p k pr m : ℝ) (L : ℕ)
    (h : 0 < (calculate_solar_financials s c p k pr m L).annual_profit)
    (hI : 0 < (calculate_solar_financials s c p k pr m L).initial_investment) :
    (calculate_solar_financials s c p k pr m L).simple_payback =
      (((calculate_solar_financials s c p k pr m L).initial_investment /
        (calculate_solar_financials s c p k pr m L).annual_profit : ℝ) : EReal) ∧
    0 < (calculate_solar_financials s c p k pr m L).simple_payback := by
  rw [csf_annual_profit] at h
  rw [csf_initial_investment] at hI
  have hm := (csf_metrics_of_viable s c p k pr m L ⟨h, hI⟩).1
  constructor
  · rw [hm, csf_annual_profit, csf_initial_investment]
  · rw [hm]
    exact_mod_cast div_pos hI h

/-- C4 witness: the amended claim at capex `100`, contingency `10%`, revenue
`2`, maintenance `1`, lifetime `5`. -/
theorem C4_witness :
    (calculate_solar_financials (fun _ => 0) 100 10 1 2 1 5).simple_payback =
      (((calculate_solar_financials (fun _ => 0) 100 10 1 2 1 5).initial_investment /
        (calculate_solar_financials (fun _ => 0) 100 10 1 2 1 5).annual_profit : ℝ) : EReal) ∧
    0 < (calculate_solar_financials (fun _ => 0) 100 10 1 2 1 5).simple_payback :=
  C4_thm (fun _ => 0) 100 10 1 2 1 5 (by rw [csf_annual_profit]; norm_num)
    (by rw [csf_initial_investment]; norm_num)

/-- C9: the profitability gate is conjunctive: with `annual_profit > 0` but
`initial_investment ≤ 0`, the evaluator returns the same not-viable sentinels
as an unprofitable project: `simple_payback = ⊤`, `roi = -1`, `irr = -1`. -/
theorem C9_thm (s : List ℝ → ℝ) (c p k pr m : ℝ) (L : ℕ)
    (_h : 0 < (calculate_solar_financials s c p k pr m L).annual_profit)
    (hI : (calculate_solar_financials s c p k pr m L).initial_investment ≤ 0) :
    (calculate_solar_financials s c p k pr m L).simple_payback = ⊤ ∧
    (calculate_solar_financials s c p k pr m L).roi = -1 ∧
    (calculate_solar_financials s c p k pr m L).irr = -1 := by
  rw [csf_initial_investment] at hI
  exact csf_metrics_of_not_viable s c p k pr m L fun hc => absurd hc.2 (not_lt.mpr hI)

/-- C9 witness: the claim at capex `0` with contingency `0%` (so investment is
`0`) and profitable operations (revenue `1`, no maintenance). -/
theorem C9_witness :
    (calculate_solar_financials (fun _ => 0) 0 0 1 1 0 25).simple_payback = ⊤ ∧
    (calculate_solar_financials (fun _ => 0) 0 0 1 1 0 25).roi = -1 ∧
    (calculate_solar_financials (fun _ => 0) 0 0 1 1 0 25).irr = -1 :=
  C9_thm (fun _ => 0) 0 0 1 1 0 25 (by rw [csf_annual_profit]; norm_num)
    (by rw [csf_initial_investment]; norm_num)

/-- C10: on every input the six descriptive fields are computed by their
defining formulas, independently of the profitability gate:
`contingency_amount = capex * contingencyPct / 100`,
`initial_investment = capex + contingency_amount`,
`annual_revenue = annual_kwh * price_per_kwh`,
`annual_profit = annual_revenue - maintenance_cost`,
`lifetime_profit = annual_profit * plant_lifetime` and
`lifetime_maintenance_cost = maintenance_cost * plant_lifetime`. -/
theorem C10_thm (s : List ℝ → ℝ) (c p k pr m : ℝ) (L : ℕ) :
    (calculate_solar_financials s c p k pr m L).contingency_amount = c * (p / 100) ∧
    (calculate_solar_financials s c p k pr m L).initial_investment =
      c + (calculate_solar_financials s c p k pr m L).contingency_amount ∧
    (calculate_solar_financials s c p k pr m L).annual_revenue = k * pr ∧
    (calculate_solar_financials s c p k pr m L).annual_profit =
      (calculate_solar_financials s c p k pr m L).annual_revenue - m ∧
    (calculate_solar_financials s c p k pr m L).lifetime_profit =
      (calculate_solar_financials s c p k pr m L).annual_profit * (L : ℝ) ∧
    (calculate_solar_financials s c p k pr m L).lifetime_maintenance_cost = m * (L : ℝ) := by
  rw [csf_contingency_amount, csf_initial_investment, csf_annual_revenue,
    csf_annual_profit, csf_lifetime_profit, csf_lifetime_maintenance_cost]
  exact ⟨rfl, rfl, rfl, rfl, rfl, rfl⟩

/-! ### Claim about the price sweep -/

/-- C8: the sweep produces one graph point per supplied price, in the supplied
order: the series has the same length as the price list, and the point at any
index carries that index's price together with the `irr` and `simple_payback`
of the evaluator run on the base parameters with the price overridden. -/
theorem C8_thm (s : List ℝ → ℝ) (capex_mil contingency_pct annual_kwh_mil maintenance_k : ℝ)
    (L : ℕ) (prices : List ℝ) (i : ℕ) (v : ℝ) (h : prices[i]? = some v) :
    (price_sweep s capex_mil contingency_pct annual_kwh_mil maintenance_k L prices).length =
      prices.length ∧
    (price_sweep s capex_mil contingency_pct annual_kwh_mil maintenance_k L prices)[i]? =
      some
        { price_per_kwh := v
          irr := (calculate_solar_financials s (capex_mil * 1000000) contingency_pct
            (annual_kwh_mil * 1000000) v (maintenance_k * 1000) L).irr
          payback_period := (calculate_solar_financials s (capex_mil * 1000000) contingency_pct
            (annual_kwh_mil * 1000000) v (maintenance_k * 1000) L).simple_payback } := by
  constructor
  · rw [price_sweep, List.length_map]
  · rw [price_sweep, List.getElem?_map, h, Option.map_some']

/-- C8 witness: the claim for the two-price list `[0.1, 0.4]` at index `1`,
with the detailed-model base parameters. -/
theorem C8_witness :
    (price_sweep (fun _ => 0) 1 10 1.5 30 25 [0.1, 0.4]).length = ([0.1, 0.4] : List ℝ).length ∧
    (price_sweep (fun _ => 0) 1 10 1.5 30 25 [0.1, 0.4])[1]? =
      some
        { price_per_kwh := 0.4
          irr := (calculate_solar_financials (fun _ => 0) (1 * 1000000) 10
            (1.5 * 1000000) 0.4 (30 * 1000) 25).irr
          payback_period := (calculate_solar_financials (fun _ => 0) (1 * 1000000) 10
            (1.5 * 1000000) 0.4 (30 * 1000) 25).simple_payback } :=
  C8_thm (fun _ => 0) 1 10 1.5 30 25 [0.1, 0.4] 1 0.4 (by simp)

/-! ### Net-present-value lemmas for the IRR claim -/

lemma npv_solar (I P r : ℝ) (L : ℕ) :
    npv (solar_cash_flows I P L) r = -I + ∑ t ∈ Finset.range L, P / (1 + r) ^ (t + 1) := by
  have hlen : (solar_cash_flows I P L).length = L + 1 := by
    simp [solar_cash_flows]
  rw [npv, hlen, Finset.sum_range_succ']
  have hsucc : ∀ t ∈ Finset.range L,
      (solar_cash_flows I P L).getD (t + 1) 0 / (1 + r) ^ (t + 1) =
        P / (1 + r) ^ (t + 1) := by
    intro t ht
    rw [Finset.mem_range] at ht
    simp [solar_cash_flows, List.getD, List.getElem?_replicate, ht]
  rw [Finset.sum_congr rfl hsucc]
  simp [solar_cash_flows]
  ring

lemma npv_solar_ge (I P r : ℝ) (L : ℕ) (hP : 0 ≤ P) (hr1 : -1 < r) (hr0 : r ≤ 0) :
    -I + (L : ℝ) * P ≤ npv (solar_cash_flows I P L) r := by
  rw [npv_solar]
  have hL : (L : ℝ) * P = ∑ _t ∈ Finset.range L, P := by
    simp [Finset.sum_const, nsmul_eq_mul]
  rw [hL]
  refine add_le_add_left (Finset.sum_le_sum ?_) (-I)
  intro t _
  have hpos : (0:ℝ) < 1 + r := by linarith
  have hppow : (0:ℝ) < (1 + r) ^ (t + 1) := pow_pos hpos _
  rw [le_div_iff₀ hppow]
  calc P * (1 + r) ^ (t + 1) ≤ P * 1 :=
        mul_le_mul_of_nonneg_left (pow_le_one₀ hpos.le (by linarith)) hP
    _ = P := mul_one P

lemma npv_solar_le (I P r : ℝ) (L : ℕ) (hP : 0 ≤ P) (hr : 0 ≤ r) :
    npv (solar_cash_flows I P L) r ≤ -I + (L : ℝ) * (P / (1 + r)) := by
  rw [npv_solar]
  have hL : (L : ℝ) * (P / (1 + r)) = ∑ _t ∈ Finset.range L, P / (1 + r) := by
    simp [Finset.sum_const, nsmul_eq_mul]
  rw [hL]
  refine add_le_add_left (Finset.sum_le_sum ?_) (-I)
  intro t _
  have h1 : (0:ℝ) < 1 + r := by linarith
  rw [div_le_div_iff₀ (pow_pos h1 _) h1]
  exact mul_le_mul_of_nonneg_left (le_self_pow₀ (by linarith) (Nat.succ_ne_zero t)) hP

lemma npv_continuousOn (cash_flows : List ℝ) :
    ContinuousOn (npv cash_flows) (Set.Icc (0:ℝ) 10) := by
  unfold npv
  apply continuousOn_finset_sum
  intro t _
  apply ContinuousOn.div continuousOn_const
    (((continuous_const.add continuous_id).pow t).continuousOn)
  intro x hx
  have h1 : (0:ℝ) < 1 + x := by
    have := hx.1
    linarith
  positivity

/-! ### The concrete scenario claim -/

/-- C5: on the concrete input capex `1,000,000`, contingency `10%`, energy
`1,500,000` kWh, price `0.17`, maintenance `30,000`, lifetime `25`, the
evaluator returns contingency `100,000`, investment `1,100,000`, revenue
`255,000`, profit `225,000`, payback `44/9 ≈ 4.89` years and roi
`181/44 ≈ 4.11`; the cash-flow stream handed to the IRR solver is
`[-1,100,000] + [225,000] * 25`, and its internal rate of return is strictly
positive: every rate above `-1` at which the stream's net present value
vanishes is positive, and such a rate exists. -/
theorem C5_thm (s : List ℝ → ℝ) :
    (calculate_solar_financials s 1000000 10 1500000 0.17 30000 25).contingency_amount =
      100000 ∧
    (calculate_solar_financials s 1000000 10 1500000 0.17 30000 25).initial_investment =
      1100000 ∧
    (calculate_solar_financials s 1000000 10 1500000 0.17 30000 25).annual_revenue =
      255000 ∧
    (calculate_solar_financials s 1000000 10 1500000 0.17 30000 25).annual_profit =
      225000 ∧
    (calculate_solar_financials s 1000000 10 1500000 0.17 30000 25).simple_payback =
      ((44 / 9 : ℝ) : EReal) ∧
    |(44 / 9 : ℝ) - 4.89| < 0.01 ∧
    (calculate_solar_financials s 1000000 10 1500000 0.17 30000 25).roi = 181 / 44 ∧
    |(181 / 44 : ℝ) - 4.11| < 0.01 ∧
    (calculate_solar_financials s 1000000 10 1500000 0.17 30000 25).irr =
      s (solar_cash_flows 1100000 225000 25) ∧
    (∀ r : ℝ, -1 < r → npv (solar_cash_flows 1100000 225000 25) r = 0 → 0 < r) ∧
    (∃ r : ℝ, 0 < r ∧ npv (solar_cash_flows 1100000 225000 25) r = 0) := by
  have hv : (1500000 : ℝ) * 0.17 - 30000 > 0 ∧
      (1000000 : ℝ) + 1000000 * (10 / 100) > 0 := by norm_num
  have hm := csf_metrics_of_viable s 1000000 10 1500000 0.17 30000 25 hv
  refine ⟨?_, ?_, ?_, ?_, ?_, by rw [abs_lt]; norm_num, ?_, by rw [abs_lt]; norm_num,
    ?_, ?_, ?_⟩
  · rw [csf_contingency_amount]; norm_num
  · rw [csf_initial_investment]; norm_num
  · rw [csf_annual_revenue]; norm_num
  · rw [csf_annual_profit]; norm_num
  · rw [hm.1, EReal.coe_eq_coe_iff]; norm_num
  · rw [hm.2.1]; norm_num
  · rw [hm.2.2]
    congr 1
    simp only [solar_cash_flows]
    norm_num
  · intro r hr1 hroot
    by_contra hle
    push_neg at hle
    have hge := npv_solar_ge 1100000 225000 r 25 (by norm_num) hr1 hle
    rw [hroot] at hge
    norm_num at hge
  · have hc := npv_continuousOn (solar_cash_flows 1100000 225000 25)
    have h0 : npv (solar_cash_flows 1100000 225000 25) 0 = 4525000 := by
      rw [npv_solar]
      norm_num
    have h10 : npv (solar_cash_flows 1100000 225000 25) 10 < 0 := by
      calc npv (solar_cash_flows 1100000 225000 25) 10 ≤
            -1100000 + (25 : ℝ) * (225000 / (1 + 10)) :=
            npv_solar_le 1100000 225000 10 25 (by norm_num) (by norm_num)
        _ < 0 := by norm_num
    have hmem : (0:ℝ) ∈ Set.Icc (npv (solar_cash_flows 1100000 225000 25) 10)
        (npv (solar_cash_flows 1100000 225000 25) 0) := by
      constructor
      · exact le_of_lt h10
      · rw [h0]; norm_num
    obtain ⟨r, hr, hfr⟩ := intermediate_value_Icc' (by norm_num : (0:ℝ) ≤ 10) hc hmem
    refine ⟨r, ?_, hfr⟩
    rcases lt_or_eq_of_le hr.1 with h | h
    · exact h
    · exfalso
      rw [← h, h0] at hfr
      norm_num at hfr
